import Mathlib

/-!
Shallow embedding of the Inkposter device client (`src/inkposter.ts`) of
the-ink-press, together with proofs about its behaviour.

Modelling conventions:
* `Uint8Array` byte buffers are `List Nat`.
* JavaScript exceptions are `Except String` with the thrown message.
* The external HTTP world is a parameter: a server is a function from the
  request the code builds to a reply carrying the HTTP status code, the
  status text, the body text (the value of `res.text().catch(() => "")`),
  and the parsed JSON payload (`res.json()` is modelled as already parsed,
  since the code casts it without validation).
* The `sharp` image library is a parameter as well: the code builds a
  pipeline description (a list of operations) and the library turns it
  into output bytes or fails; `metadata()` may fail on undecodable input.
* Wall-clock time is simulated: each reply carries the milliseconds the
  request consumed (`latencyMs`), and `sleep(POLL_INTERVAL_MS)` advances
  the clock by `POLL_INTERVAL_MS`.
-/

namespace InkPress

/-- TS: `export type FrameModel = 'Frame_13_3' | 'Frame_28_5' | 'Frame_31_5'`. -/
inductive FrameModel
  | Frame_13_3
  | Frame_28_5
  | Frame_31_5
deriving DecidableEq, Repr

/-- TS: `FrameResolution = { width: number; height: number }`. -/
structure FrameResolution where
  width : Nat
  height : Nat
deriving DecidableEq, Repr

/-- TS: `RotationAngle = 0 | 90 | 180 | 270`; at runtime it is a number.
The restriction to the four values is an invariant enforced by
`parseRotation`, proved below, so here it is a plain integer. -/
abbrev RotationAngle := Int

/-- TS: `InkposterConfig` (token, deviceId, frameUuid, frameModel, rotate). -/
structure InkposterConfig where
  token : String
  deviceId : String
  frameUuid : String
  frameModel : FrameModel
  rotate : RotationAngle
deriving DecidableEq, Repr

/-- TS: `ConvertResponse = { queueId: string }`. -/
structure ConvertResponse where
  queueId : String
deriving DecidableEq, Repr

/-- TS: `IsConvertedResponse = { status: string; message?; item? }`. -/
structure IsConvertedResponse where
  status : String
  message : Option String := none
  item : Option String := none
deriving DecidableEq, Repr

/-- TS: `PollResult` (queueId, attempts, elapsedMs, finalResponse). -/
structure PollResult where
  queueId : String
  attempts : Nat
  elapsedMs : Nat
  finalResponse : IsConvertedResponse
deriving DecidableEq, Repr

/-- TS: `ResizeResult` (resizedBytes, mediaType, original and target sizes). -/
structure ResizeResult where
  resizedBytes : List Nat
  mediaType : String
  originalWidth : Nat
  originalHeight : Nat
  targetWidth : Nat
  targetHeight : Nat
deriving DecidableEq, Repr

/-- TS: `UploadResult = { convertResponse; poll; resize }`. -/
structure UploadResult where
  convertResponse : ConvertResponse
  poll : PollResult
  resize : ResizeResult
deriving DecidableEq, Repr

/-- TS: `const API_BASE = 'https://api.inkposter.com'`. -/
def API_BASE : String := "https://api.inkposter.com"

/-- TS: `DEFAULT_HEADERS` object, as an ordered key/value list (all keys are
distinct, so object-spread merge is list append). -/
def DEFAULT_HEADERS : List (String × String) :=
  [("x-header-country", "BE"),
   ("x-header-language", "en"),
   ("x-client-id", "ios"),
   ("x-header-clientid", "ios")]

/-- TS: `CONVERT_EXTRA_HEADERS` object. -/
def CONVERT_EXTRA_HEADERS : List (String × String) :=
  [("Upload-Draft-Interop-Version", "6"),
   ("Upload-Complete", "?1")]

/-- TS: `const POLL_INTERVAL_MS = 2000`. -/
def POLL_INTERVAL_MS : Nat := 2000

/-- TS: `const POLL_TIMEOUT_MS = 120_000`. -/
def POLL_TIMEOUT_MS : Nat := 120000

/-- TS: `FRAME_RESOLUTIONS: Record<FrameModel, FrameResolution>`. -/
def FRAME_RESOLUTIONS : FrameModel → FrameResolution
  | .Frame_13_3 => { width := 1200, height := 1600 }
  | .Frame_28_5 => { width := 2160, height := 3060 }
  | .Frame_31_5 => { width := 2560, height := 1440 }

/-- TS: `getFrameResolution(model) { return FRAME_RESOLUTIONS[model]; }`. -/
def getFrameResolution (model : FrameModel) : FrameResolution :=
  FRAME_RESOLUTIONS model

/-- TS (`utils.ts`): `getRequiredEnv(name)` — throws when the variable is
absent or empty (`!v` is true for both `undefined` and `""`). -/
def getRequiredEnv (env : String → Option String) (name : String) :
    Except String String :=
  match env name with
  | none => .error ("Missing required environment variable: " ++ name)
  | some v =>
    if v = "" then .error ("Missing required environment variable: " ++ name)
    else .ok v

/-- JavaScript `String.prototype.trim` (the `.trim()` calls in the code):
strip leading and trailing whitespace, modelled on the character list. -/
def jsTrim (s : String) : String :=
  String.mk
    (((s.data.dropWhile Char.isWhitespace).reverse.dropWhile
      Char.isWhitespace).reverse)

/-- JavaScript `parseInt(s, 10)`: skip leading whitespace, optional sign,
then the longest run of decimal digits; `NaN` (here `none`) when no digit
is found. -/
def jsParseIntBase10 (s : String) : Option Int :=
  let cs := s.data.dropWhile Char.isWhitespace
  let signAndRest : Int × List Char :=
    match cs with
    | '-' :: rest => (-1, rest)
    | '+' :: rest => (1, rest)
    | rest => (1, rest)
  let digits := signAndRest.2.takeWhile Char.isDigit
  if digits = [] then none
  else
    some (signAndRest.1 *
      (digits.foldl (fun acc c => acc * 10 + (c.toNat - 48)) 0 : Nat))

/-- TS: `parseFrameModel(value)` — trim, accept the three canonical names or
the three inch sizes, otherwise throw. -/
def parseFrameModel (value : String) : Except String FrameModel :=
  let normalized := jsTrim value
  if normalized = "Frame_13_3" ∨ normalized = "13.3" then .ok .Frame_13_3
  else if normalized = "Frame_28_5" ∨ normalized = "28.5" then .ok .Frame_28_5
  else if normalized = "Frame_31_5" ∨ normalized = "31.5" then .ok .Frame_31_5
  else .error ("Invalid INKPOSTER_FRAME_MODEL: \"" ++ value ++ "\". " ++
    "Valid values: Frame_13_3, Frame_28_5, Frame_31_5 (or 13.3, 28.5, 31.5)")

/-- TS: `parseRotation(value)` — `!value` (absent or empty) defaults to 0;
otherwise `parseInt(value.trim(), 10)` must be exactly 0, 90, 180 or 270
(`NaN` fails every strict equality), else throw. -/
def parseRotation (value : Option String) : Except String RotationAngle :=
  match value with
  | none => .ok 0
  | some v =>
    if v = "" then .ok 0
    else
      match jsParseIntBase10 (jsTrim v) with
      | some num =>
        if num = 0 ∨ num = 90 ∨ num = 180 ∨ num = 270 then .ok num
        else .error ("Invalid INKPOSTER_ROTATE: \"" ++ v ++
          "\". Valid values: 0, 90, 180, 270")
      | none => .error ("Invalid INKPOSTER_ROTATE: \"" ++ v ++
          "\". Valid values: 0, 90, 180, 270")

/-- TS: `getInkposterConfig()` — reads the five environment variables,
parsing the frame model and rotation. -/
def getInkposterConfig (env : String → Option String) :
    Except String InkposterConfig := do
  let token ← getRequiredEnv env "INKPOSTER_TOKEN"
  let deviceId ← getRequiredEnv env "INKPOSTER_DEVICE_ID"
  let frameUuid ← getRequiredEnv env "INKPOSTER_FRAME_UUID"
  let frameModelRaw ← getRequiredEnv env "INKPOSTER_FRAME_MODEL"
  let frameModel ← parseFrameModel frameModelRaw
  let rotate ← parseRotation (env "INKPOSTER_ROTATE")
  pure { token, deviceId, frameUuid, frameModel, rotate }

/-- TS: `buildHeaders(config, extra)` — object spread of `DEFAULT_HEADERS`,
`extra`, then the bearer token and device id (all keys distinct, so the
merge is concatenation). -/
def buildHeaders (config : InkposterConfig)
    (extra : List (String × String) := []) : List (String × String) :=
  DEFAULT_HEADERS ++ extra ++
    [("Authorization", "Bearer " ++ config.token),
     ("x-header-deviceid", config.deviceId)]

/-- TS: `filenameFromMediaType(mediaType)`. -/
def filenameFromMediaType (mediaType : String) : String :=
  if mediaType = "image/png" then "userimage.png"
  else if mediaType = "image/webp" then "userimage.webp"
  else "userimage.jpg"

/-! ## Image transform pipeline (`resizeImageForFrame`) -/

/-- The subset of `sharp` metadata the code reads (`width`/`height` may be
absent, hence `?? 0` in the code). -/
structure SharpMetadata where
  width : Option Nat
  height : Option Nat
deriving DecidableEq, Repr

/-- One operation of the `sharp` pipeline the code builds. -/
inductive SharpOp
  /-- `.rotate()` with no argument: EXIF auto-rotation. -/
  | autoRotate
  /-- `.rotate(deg)`: fixed-angle rotation. -/
  | rotateAngle (deg : Int)
  /-- `.resize(w, h, { fit: 'cover', position: 'centre' })`. -/
  | resizeCover (w h : Nat)
  /-- `.jpeg({ quality, mozjpeg })`. -/
  | jpegEnc (quality : Nat) (mozjpeg : Bool)
deriving DecidableEq, Repr

/-- A `sharp` pipeline: the input bytes plus the chained operations,
evaluated only at `toBuffer()`. -/
structure SharpPipeline where
  inputBytes : List Nat
  ops : List SharpOp
deriving DecidableEq, Repr

/-- The external `sharp` library, abstracted: `metadata` may fail on an
undecodable image, `toBuffer` evaluates a pipeline to bytes or fails. -/
structure SharpLib where
  metadata : List Nat → Except String SharpMetadata
  toBuffer : SharpPipeline → Except String (List Nat)

/-- TS: `resizeImageForFrame(imageBytes, frameModel, rotate)` — reads the
intrinsic size, builds `sharp(bytes).rotate()`, appends `.rotate(rotate)`
when `rotate !== 0`, then `.resize(w, h, cover/centre).jpeg(95, mozjpeg)`,
and returns the fixed-table target size with media type `image/jpeg`. -/
def resizeImageForFrame (lib : SharpLib) (imageBytes : List Nat)
    (frameModel : FrameModel) (rotate : RotationAngle := 0) :
    Except String ResizeResult := do
  let resolution := FRAME_RESOLUTIONS frameModel
  let metadata ← lib.metadata imageBytes
  let originalWidth := metadata.width.getD 0
  let originalHeight := metadata.height.getD 0
  let baseOps : List SharpOp := [.autoRotate]
  let rotOps : List SharpOp :=
    if rotate ≠ 0 then baseOps ++ [.rotateAngle rotate] else baseOps
  let resizedBuffer ← lib.toBuffer
    { inputBytes := imageBytes,
      ops := rotOps ++
        [.resizeCover resolution.width resolution.height,
         .jpegEnc 95 true] }
  pure { resizedBytes := resizedBuffer,
         mediaType := "image/jpeg",
         originalWidth, originalHeight,
         targetWidth := resolution.width,
         targetHeight := resolution.height }

/-! ## HTTP model -/

/-- `Response.ok`: status in the 2xx range. -/
def resOk (status : Nat) : Bool :=
  200 ≤ status && status ≤ 299

/-- One part of the multipart `FormData` body. -/
inductive FormPart
  /-- `formData.append(name, value)` with a string value. -/
  | textField (name value : String)
  /-- `formData.append(name, blob, filename)` where the blob holds `bytes`
  with MIME type `blobType`. -/
  | fileField (name filename blobType : String) (bytes : List Nat)
deriving DecidableEq, Repr

/-- The request `uploadConvert` hands to `fetch`. -/
structure ConvertRequest where
  url : String
  method : String
  headers : List (String × String)
  body : List FormPart
deriving DecidableEq, Repr

/-- The server's reply to the convert request: status line, the value of
`res.text().catch(() => "")`, and the parsed `res.json()`. -/
structure ConvertReply where
  status : Nat
  statusText : String
  bodyText : String
  json : ConvertResponse
deriving DecidableEq, Repr

/-- The request each poll attempt hands to `fetch`: the JSON body is the
single field `queueId`. -/
structure PollRequest where
  url : String
  method : String
  headers : List (String × String)
  queueId : String
deriving DecidableEq, Repr

/-- The server's reply to one poll attempt, plus the simulated wall-clock
milliseconds the request consumed. -/
structure PollReply where
  latencyMs : Nat
  status : Nat
  statusText : String
  bodyText : String
  json : IsConvertedResponse
deriving DecidableEq, Repr

/-! ## `uploadConvert` -/

/-- The request `uploadConvert` builds: URL, POST, headers from
`buildHeaders(config, CONVERT_EXTRA_HEADERS)`, and the two-part multipart
body (`frames[]` text field, then the `file` blob named by
`filenameFromMediaType`). -/
def convertRequest (config : InkposterConfig) (imageBytes : List Nat)
    (mediaType : String) : ConvertRequest :=
  { url := API_BASE ++ "/api/v1/item/convert",
    method := "POST",
    headers := buildHeaders config CONVERT_EXTRA_HEADERS,
    body :=
      [FormPart.textField "frames[]" config.frameUuid,
       FormPart.fileField "file" (filenameFromMediaType mediaType)
         mediaType imageBytes] }

/-- TS: `uploadConvert(config, imageBytes, mediaType)` — POST the multipart
request; a non-2xx reply throws with status, status text and body text;
otherwise the parsed JSON is returned. -/
def uploadConvert (server : ConvertRequest → ConvertReply)
    (config : InkposterConfig) (imageBytes : List Nat) (mediaType : String) :
    Except String ConvertResponse :=
  let req := convertRequest config imageBytes mediaType
  let res := server req
  if !(resOk res.status) then
    .error ("Inkposter convert failed: " ++ toString res.status ++ " " ++
      res.statusText ++ " - " ++ res.bodyText)
  else .ok res.json

/-! ## `pollIsConverted`

The `while` loop is embedded structurally on a fuel argument.  Each loop
iteration advances the simulated clock by at least `POLL_INTERVAL_MS`
(the unconditional `sleep` after a pending reply), so
`POLL_TIMEOUT_MS / POLL_INTERVAL_MS` iterations always suffice;
`pollLoopAux_isSome` proves the fuel is never exhausted. -/

/-- The state of `pollIsConverted`'s local variables when the `while` loop
exits: the value of `Date.now() - startedAt`, `attempts`, and
`lastResponse`. -/
structure PollLoopExit where
  elapsedMs : Nat
  attempts : Nat
  last : Option IsConvertedResponse
deriving DecidableEq, Repr

/-- The error message thrown for a non-2xx poll reply. -/
def pollErrMsg (rep : PollReply) : String :=
  "Inkposter is-converted failed: " ++ toString rep.status ++ " " ++
    rep.statusText ++ " - " ++ rep.bodyText

/-- The `while (Date.now() - startedAt < POLL_TIMEOUT_MS)` loop of
`pollIsConverted`.  `server` maps the (1-based) attempt number and the
request to a reply; `elapsed` is the simulated `Date.now() - startedAt`.
Per iteration: increment `attempts`, fetch; non-2xx throws; a non-pending
status breaks; otherwise record the response, sleep `POLL_INTERVAL_MS`,
and loop.  `none` is returned only on fuel exhaustion, which
`pollLoopAux_isSome` shows unreachable from the actual entry point. -/
def pollLoopAux (server : Nat → PollRequest → PollReply) (req : PollRequest) :
    Nat → Nat → Nat → Option IsConvertedResponse →
    Option (Except String PollLoopExit)
  | 0, elapsed, attempts, last =>
    if elapsed < POLL_TIMEOUT_MS then none
    else some (.ok { elapsedMs := elapsed, attempts, last })
  | fuel + 1, elapsed, attempts, last =>
    if elapsed < POLL_TIMEOUT_MS then
      let k := attempts + 1
      let rep := server k req
      if !(resOk rep.status) then
        some (.error (pollErrMsg rep))
      else
        let resp := rep.json
        if resp.status ≠ "pending" then
          some (.ok { elapsedMs := elapsed + rep.latencyMs,
                      attempts := k, last := some resp })
        else
          pollLoopAux server req fuel
            (elapsed + rep.latencyMs + POLL_INTERVAL_MS) k (some resp)
    else some (.ok { elapsedMs := elapsed, attempts, last })

/-- The request `pollIsConverted` builds once and reuses every attempt:
`buildHeaders(config)` plus `Content-Type: application/json`, body
`JSON.stringify` of the single field `queueId`. -/
def pollRequest (config : InkposterConfig) (queueId : String) : PollRequest :=
  { url := API_BASE ++ "/api/v1/item/is-converted",
    method := "POST",
    headers := buildHeaders config ++ [("Content-Type", "application/json")],
    queueId }

/-- Fuel for the poll loop: enough for every possible iteration count,
since each iteration consumes at least `POLL_INTERVAL_MS` of the budget. -/
def pollFuel : Nat := POLL_TIMEOUT_MS / POLL_INTERVAL_MS

/-- TS: `pollIsConverted(config, queueId)` — run the loop from a zeroed
clock; afterwards a `null` `lastResponse` throws, otherwise the accumulated
`PollResult` is returned (also on timeout, with status still pending). -/
def pollIsConverted (server : Nat → PollRequest → PollReply)
    (config : InkposterConfig) (queueId : String) :
    Except String PollResult :=
  match pollLoopAux server (pollRequest config queueId) pollFuel 0 0 none with
  | none => .error "model: poll fuel exhausted"
  | some (.error e) => .error e
  | some (.ok ex) =>
    match ex.last with
    | none => .error "Inkposter poll: no response received"
    | some lastResponse =>
      .ok { queueId, attempts := ex.attempts, elapsedMs := ex.elapsedMs,
            finalResponse := lastResponse }

/-! ## `uploadAndPoll` -/

/-- TS: `uploadAndPoll(config, imageBytes, mediaType)` — resize to the
frame resolution, upload the resized bytes under the resize result's media
type, then poll the returned queue id; bundle all three results. -/
def uploadAndPoll (lib : SharpLib)
    (convertServer : ConvertRequest → ConvertReply)
    (pollServer : Nat → PollRequest → PollReply)
    (config : InkposterConfig) (imageBytes : List Nat) (mediaType : String) :
    Except String UploadResult := do
  let resize ← resizeImageForFrame lib imageBytes config.frameModel
    config.rotate
  let convertResponse ← uploadConvert convertServer config
    resize.resizedBytes resize.mediaType
  let poll ← pollIsConverted pollServer config convertResponse.queueId
  pure { convertResponse, poll, resize }

/-! ## Session manager's `fetchWithAuth` (modelled from the spec) -/

/-- An HTTP reply as observed by `fetchWithAuth`. -/
structure AuthedReply where
  status : Nat
  body : String
deriving DecidableEq, Repr

/-- Modelled from the spec: the Session Manager's `fetchWithAuth` wrapper
(spec section 4.3).  The session-manager source (`InkposterAuth`, imported
by `index.ts`) is not among the provided sources, so the reactive 401 path
is modelled from the spec's words: issue the request with headers built
from the current token; on a 401 reply, perform exactly one
refresh-or-login cycle and retry exactly once with headers built from the
fresh token (`requestBuilder` re-invoked); a second 401 is not retried and
propagates as a hard authentication failure.  The proactive stale-soon
refresh that precedes the request is orthogonal to the 401 path and is
elided.  `respond k tok` is the server's reply to the k-th request when
sent with token `tok`; `refreshOrLogin` yields the fresh token.  Besides
the outcome, the model returns the number of requests issued and the
number of refresh-or-login cycles performed. -/
def fetchWithAuth (respond : Nat → String → AuthedReply)
    (refreshOrLogin : String → String) (token : String) :
    Except String AuthedReply × Nat × Nat :=
  let r1 := respond 1 token
  if r1.status = 401 then
    let freshToken := refreshOrLogin token
    let r2 := respond 2 freshToken
    if r2.status = 401 then
      (.error "authentication failed: 401 after refresh and retry", 2, 1)
    else (.ok r2, 2, 1)
  else (.ok r1, 1, 0)

/-! ## Concrete example inputs (used to exercise the definitions) -/

/-- A sample configuration. -/
def cfgEx : InkposterConfig :=
  { token := "tok", deviceId := "dev", frameUuid := "uuid",
    frameModel := .Frame_13_3, rotate := 0 }

/-- A sample `sharp` library: every image decodes as 800x600 and every
pipeline renders to three bytes. -/
def libEx : SharpLib :=
  { metadata := fun _ => .ok { width := some 800, height := some 600 },
    toBuffer := fun _ => .ok [1, 2, 3] }

/-- The resize result produced by `libEx` on `cfgEx`'s frame model. -/
def rEx : ResizeResult :=
  { resizedBytes := [1, 2, 3], mediaType := "image/jpeg",
    originalWidth := 800, originalHeight := 600,
    targetWidth := 1200, targetHeight := 1600 }

/-- A 2xx poll reply with status `pending`, zero latency. -/
def pendingReply : PollReply :=
  { latencyMs := 0, status := 200, statusText := "OK", bodyText := "",
    json := { status := "pending" } }

/-- A 2xx poll reply with status `success`, zero latency. -/
def successReply : PollReply :=
  { latencyMs := 0, status := 200, statusText := "OK", bodyText := "",
    json := { status := "success" } }

/-- A non-2xx poll reply. -/
def errorReply : PollReply :=
  { latencyMs := 0, status := 500, statusText := "Internal Server Error",
    bodyText := "boom", json := { status := "error" } }

/-- A poll server answering `pending` on the first three attempts and
`success` from the fourth on. -/
def serverPending3 : Nat → PollRequest → PollReply :=
  fun k _ => if k ≤ 3 then pendingReply else successReply

/-- A poll server that always answers `pending`. -/
def serverAlwaysPending : Nat → PollRequest → PollReply :=
  fun _ _ => pendingReply

/-- A poll server answering `pending` once, then a 500. -/
def serverBad2 : Nat → PollRequest → PollReply :=
  fun k _ => if k ≤ 1 then pendingReply else errorReply

/-- A poll server that succeeds on the first attempt. -/
def pollServerEx : Nat → PollRequest → PollReply :=
  fun _ _ => successReply

/-- A convert server that accepts the upload. -/
def convertServerEx : ConvertRequest → ConvertReply :=
  fun _ => { status := 200, statusText := "OK", bodyText := "",
             json := { queueId := "queue-1" } }

/-- A convert server that rejects the upload with a 500. -/
def convertServerFail : ConvertRequest → ConvertReply :=
  fun _ => { status := 500, statusText := "Internal Server Error",
             bodyText := "boom", json := { queueId := "" } }

/-- The upload result of `libEx`/`convertServerEx`/`pollServerEx`. -/
def rUEx : UploadResult :=
  { convertResponse := { queueId := "queue-1" },
    poll := { queueId := "queue-1", attempts := 1, elapsedMs := 0,
              finalResponse := { status := "success" } },
    resize := rEx }

/-- An authenticated-request server: 401 on the first request, 200 after. -/
def respondEx : Nat → String → AuthedReply :=
  fun k _ => if k = 1 then { status := 401, body := "" }
             else { status := 200, body := "ok" }

/-- A refresh-or-login cycle producing a fresh token. -/
def refreshEx : String → String :=
  fun t => t ++ "+fresh"

/-- A sample environment with a rotation of 90 degrees. -/
def envEx : String → Option String :=
  fun name =>
    if name = "INKPOSTER_TOKEN" then some "tok"
    else if name = "INKPOSTER_DEVICE_ID" then some "dev"
    else if name = "INKPOSTER_FRAME_UUID" then some "uuid"
    else if name = "INKPOSTER_FRAME_MODEL" then some "Frame_13_3"
    else if name = "INKPOSTER_ROTATE" then some "90"
    else none

/-! ## General helper lemmas -/

/-- Successful `Except` bind splits into successful stages. -/
lemma exceptBind_ok {α β : Type} (x : Except String α)
    (f : α → Except String β) (b : β) :
    (x >>= f) = .ok b → ∃ a, x = .ok a ∧ f a = .ok b := by
  intro h
  cases x with
  | error e => simp [Bind.bind, Except.bind] at h
  | ok a => exact ⟨a, rfl, by simpa [Bind.bind, Except.bind] using h⟩

/-- A successful resize always reports the frame table's target size and
the fixed `image/jpeg` delivery type. -/
lemma resize_ok_fields (lib : SharpLib) (bytes : List Nat)
    (model : FrameModel) (rot : RotationAngle) (r : ResizeResult) :
    resizeImageForFrame lib bytes model rot = .ok r →
    r.mediaType = "image/jpeg" ∧
    r.targetWidth = (FRAME_RESOLUTIONS model).width ∧
    r.targetHeight = (FRAME_RESOLUTIONS model).height := by
  intro heq
  unfold resizeImageForFrame at heq
  cases hm : lib.metadata bytes with
  | error e =>
    rw [hm] at heq
    simp [Bind.bind, Except.bind] at heq
  | ok md =>
    rw [hm] at heq
    simp only [Bind.bind, Except.bind, Functor.map, Except.map] at heq
    split at heq
    · simp at heq
    · simp only [pure, Except.pure, Except.ok.injEq] at heq
      rw [← heq]
      exact ⟨rfl, rfl, rfl⟩

/-- `parseRotation` only ever accepts the four rotation values. -/
lemma parseRotation_mem (v : Option String) (r : RotationAngle) :
    parseRotation v = .ok r →
    r = 0 ∨ r = 90 ∨ r = 180 ∨ r = 270 := by
  intro heq
  unfold parseRotation at heq
  cases v with
  | none =>
    simp only [Except.ok.injEq] at heq
    exact Or.inl heq.symm
  | some s =>
    by_cases hs : s = ""
    · simp only [hs, if_true, Except.ok.injEq] at heq
      exact Or.inl heq.symm
    · simp only [hs, if_false] at heq
      cases hp : jsParseIntBase10 (jsTrim s) with
      | none => rw [hp] at heq; simp at heq
      | some num =>
        rw [hp] at heq
        by_cases hmem : num = 0 ∨ num = 90 ∨ num = 180 ∨ num = 270
        · simp only [hmem, if_true, Except.ok.injEq] at heq
          rw [← heq]
          exact hmem
        · simp [hmem] at heq

/-- A loop error message never collides with the post-loop
`no response received` message. -/
lemma pollErrMsg_ne_noResponse (rep : PollReply) :
    pollErrMsg rep ≠ "Inkposter poll: no response received" := by
  unfold pollErrMsg
  intro h
  have h2 := congrArg String.data h
  simp [String.data_append] at h2

/-- A loop error message never collides with the fuel-exhaustion marker. -/
lemma pollErrMsg_ne_fuelMsg (rep : PollReply) :
    pollErrMsg rep ≠ "model: poll fuel exhausted" := by
  unfold pollErrMsg
  intro h
  have h2 := congrArg String.data h
  simp [String.data_append] at h2

/-! ## Poll loop lemmas -/

/-- The loop's fuel is never exhausted while the time budget covers it:
each iteration consumes at least `POLL_INTERVAL_MS` of the remaining
budget. -/
lemma pollLoopAux_isSome (server : Nat → PollRequest → PollReply)
    (req : PollRequest) :
    ∀ fuel elapsed attempts last,
      POLL_TIMEOUT_MS ≤ elapsed + fuel * POLL_INTERVAL_MS →
      (pollLoopAux server req fuel elapsed attempts last).isSome := by
  intro fuel
  induction fuel with
  | zero =>
    intro elapsed attempts last h
    rw [pollLoopAux]
    have hge : ¬ elapsed < POLL_TIMEOUT_MS := by omega
    simp [hge]
  | succ fuel ih =>
    intro elapsed attempts last h
    rw [pollLoopAux]
    by_cases hg : elapsed < POLL_TIMEOUT_MS
    · simp only [hg, if_true]
      by_cases hok : resOk (server (attempts + 1) req).status
      · simp only [hok, Bool.not_true, Bool.false_eq_true, if_false]
        by_cases hp : (server (attempts + 1) req).json.status = "pending"
        · simp only [hp, ne_eq, not_true_eq_false, if_false, ite_not]
          refine ih _ _ _ ?_
          have : (fuel + 1) * POLL_INTERVAL_MS
              = fuel * POLL_INTERVAL_MS + POLL_INTERVAL_MS := by ring
          omega
        · simp [hp]
      · simp [hok]
    · simp [hg]

/-- Invariant of successful loop exits: attempts only grow; every attempt
strictly before the last one saw a 2xx pending reply; when at least one
attempt was made, `last` is that final attempt's parsed body (2xx); when no
attempt was made the state is returned unchanged; and a still-pending
`last` is only returned once the timeout has elapsed. -/
lemma pollLoopAux_ok_spec (server : Nat → PollRequest → PollReply)
    (req : PollRequest) :
    ∀ fuel elapsed attempts last out,
      (∀ l, last = some l → l.status = "pending") →
      pollLoopAux server req fuel elapsed attempts last = some (.ok out) →
      attempts ≤ out.attempts
      ∧ (∀ j, attempts < j → j < out.attempts →
          resOk (server j req).status = true ∧
          (server j req).json.status = "pending")
      ∧ (attempts < out.attempts →
          out.last = some (server out.attempts req).json ∧
          resOk (server out.attempts req).status = true)
      ∧ (out.attempts = attempts → out.last = last ∧ out.elapsedMs = elapsed)
      ∧ (∀ fin, out.last = some fin → fin.status = "pending" →
          POLL_TIMEOUT_MS ≤ out.elapsedMs) := by
  intro fuel
  induction fuel with
  | zero =>
    intro elapsed attempts last out hLast heq
    rw [pollLoopAux] at heq
    by_cases hg : elapsed < POLL_TIMEOUT_MS
    · simp [hg] at heq
    · simp only [hg, if_false, Option.some.injEq, Except.ok.injEq] at heq
      have hoe : out.elapsedMs = elapsed := by rw [← heq]
      have hoa : out.attempts = attempts := by rw [← heq]
      have hol : out.last = last := by rw [← heq]
      refine ⟨by omega, ?_, ?_, ?_, ?_⟩
      · intro j h1 h2; exfalso; omega
      · intro h; exfalso; omega
      · intro _; exact ⟨hol, hoe⟩
      · intro fin hfin _; rw [hoe]; exact le_of_not_lt hg
  | succ fuel ih =>
    intro elapsed attempts last out hLast heq
    rw [pollLoopAux] at heq
    by_cases hg : elapsed < POLL_TIMEOUT_MS
    · simp only [hg, if_true] at heq
      by_cases hok : resOk (server (attempts + 1) req).status
      · simp only [hok, Bool.not_true, Bool.false_eq_true, if_false] at heq
        by_cases hp : (server (attempts + 1) req).json.status = "pending"
        · simp only [hp, ne_eq, not_true_eq_false, if_false, ite_not,
            if_true] at heq
          have hspec := ih (elapsed + (server (attempts + 1) req).latencyMs +
              POLL_INTERVAL_MS) (attempts + 1)
              (some (server (attempts + 1) req).json) out
              (by intro l hl; cases hl; exact hp) heq
          obtain ⟨ha, hb, hc, hd, he⟩ := hspec
          refine ⟨by omega, ?_, ?_, ?_, he⟩
          · intro j h1 h2
            rcases Nat.lt_or_ge (attempts + 1) j with hj | hj
            · exact hb j hj h2
            · have : j = attempts + 1 := by omega
              subst this
              exact ⟨hok, hp⟩
          · intro hlt
            rcases Nat.lt_or_ge (attempts + 1) out.attempts with hj | hj
            · exact hc hj
            · have hjj : out.attempts = attempts + 1 := by omega
              obtain ⟨hl, _⟩ := hd hjj
              rw [hjj]
              exact ⟨hl, hok⟩
          · intro hatt; exfalso; omega
        · simp only [hp, ne_eq, not_false_eq_true, if_true, ite_not,
            if_false, Option.some.injEq, Except.ok.injEq] at heq
          have hoe : out.elapsedMs
              = elapsed + (server (attempts + 1) req).latencyMs := by
            rw [← heq]
          have hoa : out.attempts = attempts + 1 := by rw [← heq]
          have hol : out.last = some (server (attempts + 1) req).json := by
            rw [← heq]
          refine ⟨by omega, ?_, ?_, ?_, ?_⟩
          · intro j h1 h2; exfalso; omega
          · intro _; rw [hoa]; exact ⟨hol, hok⟩
          · intro h; exfalso; omega
          · intro fin hfin hpend
            rw [hol, Option.some.injEq] at hfin
            rw [← hfin] at hpend
            exact absurd hpend hp
      · simp [hok] at heq
    · simp only [hg, if_false, Option.some.injEq, Except.ok.injEq] at heq
      have hoe : out.elapsedMs = elapsed := by rw [← heq]
      have hoa : out.attempts = attempts := by rw [← heq]
      have hol : out.last = last := by rw [← heq]
      refine ⟨by omega, ?_, ?_, ?_, ?_⟩
      · intro j h1 h2; exfalso; omega
      · intro h; exfalso; omega
      · intro _; exact ⟨hol, hoe⟩
      · intro fin hfin _; rw [hoe]; exact le_of_not_lt hg

/-- If the loop is entered with time remaining (or already holds a
response), any successful exit carries a response: the body runs at least
once before the guard can fail. -/
lemma pollLoopAux_last_isSome (server : Nat → PollRequest → PollReply)
    (req : PollRequest) :
    ∀ fuel elapsed attempts last out,
      (elapsed < POLL_TIMEOUT_MS ∨ last.isSome) →
      pollLoopAux server req fuel elapsed attempts last = some (.ok out) →
      out.last.isSome := by
  intro fuel
  induction fuel with
  | zero =>
    intro elapsed attempts last out hpre heq
    rw [pollLoopAux] at heq
    by_cases hg : elapsed < POLL_TIMEOUT_MS
    · simp [hg] at heq
    · simp only [hg, if_false, Option.some.injEq, Except.ok.injEq] at heq
      have hol : out.last = last := by rw [← heq]
      rw [hol]
      rcases hpre with h | h
      · exact absurd h hg
      · exact h
  | succ fuel ih =>
    intro elapsed attempts last out hpre heq
    rw [pollLoopAux] at heq
    by_cases hg : elapsed < POLL_TIMEOUT_MS
    · simp only [hg, if_true] at heq
      by_cases hok : resOk (server (attempts + 1) req).status
      · simp only [hok, Bool.not_true, Bool.false_eq_true, if_false] at heq
        by_cases hp : (server (attempts + 1) req).json.status = "pending"
        · simp only [hp, ne_eq, not_true_eq_false, if_false, ite_not,
            if_true] at heq
          exact ih _ _ _ out (Or.inr (by simp)) heq
        · simp only [hp, ne_eq, not_false_eq_true, if_true, ite_not,
            if_false, Option.some.injEq, Except.ok.injEq] at heq
          have hol : out.last = some (server (attempts + 1) req).json := by
            rw [← heq]
          simp [hol]
      · simp [hok] at heq
    · simp only [hg, if_false, Option.some.injEq, Except.ok.injEq] at heq
      have hol : out.last = last := by rw [← heq]
      rw [hol]
      rcases hpre with h | h
      · exact absurd h hg
      · exact h

/-- When every reply is 2xx, the loop never throws. -/
lemma pollLoopAux_no_error (server : Nat → PollRequest → PollReply)
    (req : PollRequest) :
    ∀ fuel elapsed attempts last e,
      (∀ k, resOk (server k req).status = true) →
      pollLoopAux server req fuel elapsed attempts last
        ≠ some (.error e) := by
  intro fuel
  induction fuel with
  | zero =>
    intro elapsed attempts last e _ heq
    rw [pollLoopAux] at heq
    by_cases hg : elapsed < POLL_TIMEOUT_MS <;> simp [hg] at heq
  | succ fuel ih =>
    intro elapsed attempts last e h2xx heq
    rw [pollLoopAux] at heq
    by_cases hg : elapsed < POLL_TIMEOUT_MS
    · simp only [hg, if_true, h2xx (attempts + 1), Bool.not_true,
        Bool.false_eq_true, if_false] at heq
      by_cases hp : (server (attempts + 1) req).json.status = "pending"
      · simp only [hp, ne_eq, not_true_eq_false, if_false, ite_not,
          if_true] at heq
        exact ih _ _ _ e h2xx heq
      · simp [hp] at heq
    · simp [hg] at heq

/-- If attempts before `k` all return 2xx pending replies instantly, the
reply at attempt `k` is non-2xx, and `k` lies within the time and fuel
budget, then the loop throws the non-2xx error of attempt `k`. -/
lemma pollLoopAux_error_reached (server : Nat → PollRequest → PollReply)
    (req : PollRequest) :
    ∀ fuel elapsed attempts last k,
      attempts < k →
      (∀ j, attempts < j → j < k →
        resOk (server j req).status = true ∧
        (server j req).json.status = "pending" ∧
        (server j req).latencyMs = 0) →
      resOk (server k req).status = false →
      elapsed + (k - attempts - 1) * POLL_INTERVAL_MS < POLL_TIMEOUT_MS →
      k - attempts ≤ fuel →
      pollLoopAux server req fuel elapsed attempts last
        = some (.error (pollErrMsg (server k req))) := by
  intro fuel
  induction fuel with
  | zero =>
    intro elapsed attempts last k hk _ _ _ hfuel
    exfalso; omega
  | succ fuel ih =>
    intro elapsed attempts last k hk hpend hbad htime hfuel
    rw [pollLoopAux]
    have hg : elapsed < POLL_TIMEOUT_MS := by omega
    simp only [hg, if_true]
    by_cases hkk : k = attempts + 1
    · subst hkk
      simp [hbad]
    · obtain ⟨hok1, hp1, hl1⟩ := hpend (attempts + 1) (by omega) (by omega)
      simp only [hok1, Bool.not_true, Bool.false_eq_true, if_false, hp1,
        ne_eq, not_true_eq_false, if_false, ite_not, if_true, hl1]
      have := ih (elapsed + 0 + POLL_INTERVAL_MS) (attempts + 1)
        (some (server (attempts + 1) req).json) k (by omega)
        (fun j h1 h2 => hpend j (by omega) h2) hbad
        (by
          have hsub : k - (attempts + 1) - 1 + 1 = k - attempts - 1 := by
            omega
          have : (k - attempts - 1) * POLL_INTERVAL_MS
              = (k - (attempts + 1) - 1) * POLL_INTERVAL_MS
                + POLL_INTERVAL_MS := by
            rw [← hsub]; ring
          omega)
        (by omega)
      simpa using this

/-- Any error exiting the loop is the non-2xx message of some attempt. -/
lemma pollLoopAux_error_form (server : Nat → PollRequest → PollReply)
    (req : PollRequest) :
    ∀ fuel elapsed attempts last e,
      pollLoopAux server req fuel elapsed attempts last = some (.error e) →
      ∃ k, e = pollErrMsg (server k req) := by
  intro fuel
  induction fuel with
  | zero =>
    intro elapsed attempts last e heq
    rw [pollLoopAux] at heq
    by_cases hg : elapsed < POLL_TIMEOUT_MS <;> simp [hg] at heq
  | succ fuel ih =>
    intro elapsed attempts last e heq
    rw [pollLoopAux] at heq
    by_cases hg : elapsed < POLL_TIMEOUT_MS
    · simp only [hg, if_true] at heq
      by_cases hok : resOk (server (attempts + 1) req).status
      · simp only [hok, Bool.not_true, Bool.false_eq_true, if_false] at heq
        by_cases hp : (server (attempts + 1) req).json.status = "pending"
        · simp only [hp, ne_eq, not_true_eq_false, if_false, ite_not,
            if_true] at heq
          exact ih _ _ _ e heq
        · simp [hp] at heq
      · simp only [hok, Bool.not_false, Bool.false_eq_true, if_true,
          Option.some.injEq, Except.error.injEq] at heq
        exact ⟨attempts + 1, heq.symm⟩
    · simp [hg] at heq

/-- A successful `pollIsConverted` echoes the queue id it was given. -/
lemma pollIsConverted_ok_queueId (server : Nat → PollRequest → PollReply)
    (config : InkposterConfig) (queueId : String) (p : PollResult) :
    pollIsConverted server config queueId = .ok p → p.queueId = queueId := by
  intro h
  unfold pollIsConverted at h
  split at h
  · simp at h
  · simp at h
  · split at h
    · simp at h
    · simp only [Except.ok.injEq] at h
      rw [← h]

/-! ## Claim theorems -/

/-- C1: for every frame model, decodable input image and rotation angle in
0/90/180/270, a successful `resizeImageForFrame` reports exactly the fixed
table resolution for the model (1200x1600, 2160x3060, 2560x1440) and the
single delivery media type `image/jpeg`, regardless of the input's aspect
ratio. -/
theorem c1_resizeImageForFrame_fixed_target
    (lib : SharpLib) (imageBytes : List Nat) (frameModel : FrameModel)
    (rotate : RotationAngle) (r : ResizeResult)
    (hrot : rotate = 0 ∨ rotate = 90 ∨ rotate = 180 ∨ rotate = 270)
    (heq : resizeImageForFrame lib imageBytes frameModel rotate = .ok r) :
    r.mediaType = "image/jpeg" ∧
    r.targetWidth = (FRAME_RESOLUTIONS frameModel).width ∧
    r.targetHeight = (FRAME_RESOLUTIONS frameModel).height ∧
    (frameModel = .Frame_13_3 → r.targetWidth = 1200 ∧ r.targetHeight = 1600) ∧
    (frameModel = .Frame_28_5 → r.targetWidth = 2160 ∧ r.targetHeight = 3060) ∧
    (frameModel = .Frame_31_5 → r.targetWidth = 2560 ∧ r.targetHeight = 1440) := by
  obtain ⟨hm, hw, hh⟩ := resize_ok_fields lib imageBytes frameModel rotate r heq
  refine ⟨hm, hw, hh, ?_, ?_, ?_⟩ <;>
    (intro hfm; subst hfm; rw [hw, hh]; exact ⟨rfl, rfl⟩)

/-- Witness for C1 at a concrete library, image, model and rotation. -/
theorem c1_resizeImageForFrame_fixed_target_witness :
    rEx.mediaType = "image/jpeg" ∧ rEx.targetWidth = 1200 ∧
    rEx.targetHeight = 1600 := by
  have h := c1_resizeImageForFrame_fixed_target libEx [0] .Frame_13_3 0 rEx
    (Or.inl rfl) (by rfl)
  exact ⟨h.1, (h.2.2.2.1 rfl).1, (h.2.2.2.1 rfl).2⟩

/-- C2: a 401 reply triggers exactly one refresh-or-login cycle and
exactly one retry with headers built from the fresh token; a 401-then-200
sequence hands the caller the 200 reply, while a second 401 is not retried
and propagates as a hard authentication failure.  (Session manager
modelled from the spec; see `fetchWithAuth`.) -/
theorem c2_fetchWithAuth_single_retry
    (respond : Nat → String → AuthedReply) (refresh : String → String)
    (token : String) (h401 : (respond 1 token).status = 401) :
    ((respond 2 (refresh token)).status = 200 →
      fetchWithAuth respond refresh token
        = (.ok (respond 2 (refresh token)), 2, 1)) ∧
    ((respond 2 (refresh token)).status = 401 →
      fetchWithAuth respond refresh token
        = (.error "authentication failed: 401 after refresh and retry",
           2, 1)) := by
  constructor
  · intro h200
    unfold fetchWithAuth
    rw [if_pos h401, if_neg (by rw [h200]; omega)]
  · intro h401b
    unfold fetchWithAuth
    rw [if_pos h401, if_pos h401b]

/-- Witness for C2: a concrete 401-then-200 server. -/
theorem c2_fetchWithAuth_single_retry_witness :
    fetchWithAuth respondEx refreshEx "t0"
      = (.ok { status := 200, body := "ok" }, 2, 1) := by
  have h := (c2_fetchWithAuth_single_retry respondEx refreshEx "t0" rfl).1 rfl
  simpa using h

/-- C4: `pollIsConverted` counts one attempt per request: pending three
times then success yields 4 attempts ending in `success`; an
always-pending server (zero simulated latency) yields a still-pending
result after `ceil(timeout/interval) = 60` attempts. -/
theorem c4_pollIsConverted_attempt_counts :
    (pollIsConverted serverPending3 cfgEx "queue-1").map
        (fun r => (r.attempts, r.finalResponse.status)) = .ok (4, "success") ∧
    (pollIsConverted serverAlwaysPending cfgEx "queue-1").map
        (fun r => (r.attempts, r.finalResponse.status)) = .ok (60, "pending") ∧
    (POLL_TIMEOUT_MS + POLL_INTERVAL_MS - 1) / POLL_INTERVAL_MS = 60 :=
  ⟨rfl, rfl, rfl⟩

/-- C3: `pollIsConverted` polls on a fixed 2-second interval with a
120-second wall-clock timeout; when every reply is 2xx it returns (never
throws) the last observed response, every attempt before the final one saw
`pending`, and a final response still `pending` occurs only once the
timeout has elapsed — timeout is a returned result, not an error. -/
theorem c3_pollIsConverted_loop_contract
    (server : Nat → PollRequest → PollReply) (config : InkposterConfig)
    (queueId : String)
    (h2xx : ∀ k, resOk (server k (pollRequest config queueId)).status = true) :
    POLL_INTERVAL_MS = 2000 ∧ POLL_TIMEOUT_MS = 120000 ∧
    ∃ r, pollIsConverted server config queueId = .ok r ∧
      1 ≤ r.attempts ∧
      r.finalResponse
        = (server r.attempts (pollRequest config queueId)).json ∧
      (∀ j, 0 < j → j < r.attempts →
        (server j (pollRequest config queueId)).json.status = "pending") ∧
      (r.finalResponse.status = "pending" →
        POLL_TIMEOUT_MS ≤ r.elapsedMs) := by
  refine ⟨rfl, rfl, ?_⟩
  cases hx : pollLoopAux server (pollRequest config queueId)
      pollFuel 0 0 none with
  | none =>
    have hsome := pollLoopAux_isSome server (pollRequest config queueId)
      pollFuel 0 0 none (by decide)
    rw [hx] at hsome
    simp at hsome
  | some x =>
    cases x with
    | error e =>
      exact absurd hx (pollLoopAux_no_error server
        (pollRequest config queueId) pollFuel 0 0 none e h2xx)
    | ok out =>
      have hlast := pollLoopAux_last_isSome server
        (pollRequest config queueId) pollFuel 0 0 none out
        (Or.inl (by decide)) hx
      obtain ⟨fin, hfin⟩ := Option.isSome_iff_exists.mp hlast
      obtain ⟨ha, hb, hc, hd, he⟩ := pollLoopAux_ok_spec server
        (pollRequest config queueId) pollFuel 0 0 none out
        (by intro l hl; cases hl) hx
      have hpos : 0 < out.attempts := by
        rcases Nat.eq_zero_or_pos out.attempts with h0 | h0
        · obtain ⟨hl, _⟩ := hd h0
          rw [hfin] at hl
          cases hl
        · exact h0
      obtain ⟨hlast_eq, _⟩ := hc hpos
      rw [hfin] at hlast_eq
      have hfin_eq : fin
          = (server out.attempts (pollRequest config queueId)).json :=
        Option.some.inj hlast_eq
      refine ⟨{ queueId, attempts := out.attempts,
                elapsedMs := out.elapsedMs, finalResponse := fin },
              ?_, hpos, hfin_eq, ?_, ?_⟩
      · unfold pollIsConverted
        rw [hx]
        dsimp only
        rw [hfin]
      · intro j hj1 hj2
        exact (hb j hj1 hj2).2
      · intro hpend
        exact he fin hfin hpend

/-- Witness for C3 at a concrete pending-then-success server. -/
theorem c3_pollIsConverted_loop_contract_witness :
    POLL_INTERVAL_MS = 2000 ∧ POLL_TIMEOUT_MS = 120000 ∧
    ∃ r, pollIsConverted serverPending3 cfgEx "queue-1" = .ok r ∧
      1 ≤ r.attempts ∧
      r.finalResponse
        = (serverPending3 r.attempts (pollRequest cfgEx "queue-1")).json ∧
      (∀ j, 0 < j → j < r.attempts →
        (serverPending3 j (pollRequest cfgEx "queue-1")).json.status
          = "pending") ∧
      (r.finalResponse.status = "pending" →
        POLL_TIMEOUT_MS ≤ r.elapsedMs) :=
  c3_pollIsConverted_loop_contract serverPending3 cfgEx "queue-1"
    (by intro k; unfold serverPending3; split <;> rfl)

/-- C5: a non-2xx reply from the convert endpoint makes `uploadConvert`
throw the fatal upload error carrying the status and body text; a non-2xx
reply at any reached poll attempt makes `pollIsConverted` throw
immediately, aborting the loop with no retry inside it. -/
theorem c5_non2xx_fatal :
    (∀ (server : ConvertRequest → ConvertReply) (config : InkposterConfig)
       (bytes : List Nat) (mediaType : String),
       resOk (server (convertRequest config bytes mediaType)).status
         = false →
       uploadConvert server config bytes mediaType
         = .error ("Inkposter convert failed: "
             ++ toString (server (convertRequest config bytes
                  mediaType)).status
             ++ " "
             ++ (server (convertRequest config bytes mediaType)).statusText
             ++ " - "
             ++ (server (convertRequest config bytes mediaType)).bodyText))
    ∧
    (∀ (server : Nat → PollRequest → PollReply) (config : InkposterConfig)
       (queueId : String) (k : Nat),
       0 < k → k ≤ pollFuel →
       (∀ j, 0 < j → j < k →
         resOk (server j (pollRequest config queueId)).status = true ∧
         (server j (pollRequest config queueId)).json.status = "pending" ∧
         (server j (pollRequest config queueId)).latencyMs = 0) →
       resOk (server k (pollRequest config queueId)).status = false →
       pollIsConverted server config queueId
         = .error (pollErrMsg (server k (pollRequest config queueId)))) := by
  constructor
  · intro server config bytes mediaType hbad
    simp only [uploadConvert]
    rw [hbad]
    rfl
  · intro server config queueId k hk hkfuel hpend hbad
    have hfuelval : pollFuel = 60 := rfl
    have herr := pollLoopAux_error_reached server
      (pollRequest config queueId) pollFuel 0 0 none k hk
      (fun j h1 h2 => hpend j h1 h2) hbad
      (by
        simp only [POLL_INTERVAL_MS, POLL_TIMEOUT_MS]
        omega)
      (by omega)
    unfold pollIsConverted
    rw [herr]

/-- Witness for C5: a 500 at the convert endpoint and a 500 at the second
poll attempt. -/
theorem c5_non2xx_fatal_witness :
    uploadConvert convertServerFail cfgEx [7] "image/jpeg"
      = .error "Inkposter convert failed: 500 Internal Server Error - boom"
    ∧
    pollIsConverted serverBad2 cfgEx "queue-1"
      = .error
          "Inkposter is-converted failed: 500 Internal Server Error - boom"
    := by
  constructor
  · have h := c5_non2xx_fatal.1 convertServerFail cfgEx [7] "image/jpeg" rfl
    simpa using h
  · have h := c5_non2xx_fatal.2 serverBad2 cfgEx "queue-1" 2 (by decide)
      (by decide)
      (by
        intro j h1 h2
        have hj : j = 1 := by omega
        subst hj
        exact ⟨rfl, rfl, rfl⟩)
      rfl
    simpa [pollErrMsg] using h

/-- C6: `uploadAndPoll` is the sequential composition of the three stages:
a successful run is exactly a successful resize, followed by a successful
`uploadConvert` applied to the resize's output bytes and media type,
followed by a successful `pollIsConverted` applied to the queue id the
upload returned, all bundled into one `UploadResult`. -/
theorem c6_uploadAndPoll_composition
    (lib : SharpLib) (cs : ConvertRequest → ConvertReply)
    (ps : Nat → PollRequest → PollReply) (config : InkposterConfig)
    (bytes : List Nat) (mediaType : String) (r : UploadResult)
    (heq : uploadAndPoll lib cs ps config bytes mediaType = .ok r) :
    resizeImageForFrame lib bytes config.frameModel config.rotate
      = .ok r.resize ∧
    uploadConvert cs config r.resize.resizedBytes r.resize.mediaType
      = .ok r.convertResponse ∧
    pollIsConverted ps config r.convertResponse.queueId = .ok r.poll ∧
    r.poll.queueId = r.convertResponse.queueId := by
  unfold uploadAndPoll at heq
  obtain ⟨rz, hrz, heq2⟩ := exceptBind_ok _ _ _ heq
  obtain ⟨cr, hcr, heq3⟩ := exceptBind_ok _ _ _ heq2
  obtain ⟨pl, hpl, heq4⟩ := exceptBind_ok _ _ _ heq3
  have hr : UploadResult.mk cr pl rz = r := by
    simpa [pure, Except.pure] using heq4
  rw [← hr]
  exact ⟨hrz, hcr, hpl,
    pollIsConverted_ok_queueId ps config cr.queueId pl hpl⟩

/-- Witness for C6: concrete library and servers, evaluated end to end. -/
theorem c6_uploadAndPoll_composition_witness :
    resizeImageForFrame libEx [0] cfgEx.frameModel cfgEx.rotate
      = .ok rUEx.resize ∧
    uploadConvert convertServerEx cfgEx rUEx.resize.resizedBytes
      rUEx.resize.mediaType = .ok rUEx.convertResponse ∧
    pollIsConverted pollServerEx cfgEx rUEx.convertResponse.queueId
      = .ok rUEx.poll ∧
    rUEx.poll.queueId = rUEx.convertResponse.queueId :=
  c6_uploadAndPoll_composition libEx convertServerEx pollServerEx cfgEx
    [0] "image/png" rUEx (by rfl)

/-- C7: the convert request carries exactly two multipart parts — the
`frames[]` text field with the frame identifier and the `file` field with
the image bytes under the media-type-derived filename (`userimage.png`
for `image/png`, `userimage.webp` for `image/webp`, `userimage.jpg`
otherwise) — and the two fixed upload-protocol headers on top of the
standard authenticated headers; `uploadConvert` sends exactly that
request. -/
theorem c7_uploadConvert_multipart (config : InkposterConfig)
    (bytes : List Nat) (mediaType : String) :
    (convertRequest config bytes mediaType).body
      = [FormPart.textField "frames[]" config.frameUuid,
         FormPart.fileField "file" (filenameFromMediaType mediaType)
           mediaType bytes] ∧
    ((convertRequest config bytes mediaType).body).length = 2 ∧
    (convertRequest config bytes mediaType).headers
      = DEFAULT_HEADERS ++ CONVERT_EXTRA_HEADERS
          ++ [("Authorization", "Bearer " ++ config.token),
              ("x-header-deviceid", config.deviceId)] ∧
    CONVERT_EXTRA_HEADERS
      = [("Upload-Draft-Interop-Version", "6"), ("Upload-Complete", "?1")] ∧
    filenameFromMediaType "image/png" = "userimage.png" ∧
    filenameFromMediaType "image/webp" = "userimage.webp" ∧
    (mediaType ≠ "image/png" → mediaType ≠ "image/webp" →
      filenameFromMediaType mediaType = "userimage.jpg") ∧
    (∀ cs cs2 : ConvertRequest → ConvertReply,
      cs (convertRequest config bytes mediaType)
        = cs2 (convertRequest config bytes mediaType) →
      uploadConvert cs config bytes mediaType
        = uploadConvert cs2 config bytes mediaType) := by
  refine ⟨rfl, rfl, rfl, rfl, rfl, rfl, ?_, ?_⟩
  · intro h1 h2
    unfold filenameFromMediaType
    rw [if_neg h1, if_neg h2]
  · intro cs cs2 h
    simp only [uploadConvert]
    rw [h]

/-- Witness for C7 at a concrete config and an unknown media type. -/
theorem c7_uploadConvert_multipart_witness :
    (convertRequest cfgEx [5] "text/plain").body
      = [FormPart.textField "frames[]" "uuid",
         FormPart.fileField "file" "userimage.jpg" "text/plain" [5]] ∧
    filenameFromMediaType "text/plain" = "userimage.jpg" := by
  have h := c7_uploadConvert_multipart cfgEx [5] "text/plain"
  have hjpg := h.2.2.2.2.2.2.1 (by decide) (by decide)
  constructor
  · rw [h.1, hjpg]
    rfl
  · exact hjpg

/-- C8: every successfully parsed configuration carries a rotation in
0/90/180/270 (0 when the variable is absent) and a frame model with a
known resolution; a rotation input parsing outside the accepted values, or
a frame-model input outside the accepted spellings, is a thrown
configuration error instead of a config. -/
theorem c8_config_invariants :
    (∀ (env : String → Option String) (cfg : InkposterConfig),
       getInkposterConfig env = .ok cfg →
       (cfg.rotate = 0 ∨ cfg.rotate = 90 ∨ cfg.rotate = 180 ∨
        cfg.rotate = 270) ∧
       (getFrameResolution cfg.frameModel = { width := 1200, height := 1600 }
        ∨ getFrameResolution cfg.frameModel
            = { width := 2160, height := 3060 }
        ∨ getFrameResolution cfg.frameModel
            = { width := 2560, height := 1440 }) ∧
       (env "INKPOSTER_ROTATE" = none → cfg.rotate = 0)) ∧
    (∀ v : String, v ≠ "" →
       (∀ n : Int, jsParseIntBase10 (jsTrim v) = some n →
         ¬(n = 0 ∨ n = 90 ∨ n = 180 ∨ n = 270)) →
       ∃ e, parseRotation (some v) = .error e) ∧
    (∀ s : String,
       jsTrim s ∉ (["Frame_13_3", "13.3", "Frame_28_5", "28.5",
                  "Frame_31_5", "31.5"] : List String) →
       ∃ e, parseFrameModel s = .error e) := by
  refine ⟨?_, ?_, ?_⟩
  · intro env cfg heq
    unfold getInkposterConfig at heq
    obtain ⟨tok, htok, heq2⟩ := exceptBind_ok _ _ _ heq
    obtain ⟨dev, hdev, heq3⟩ := exceptBind_ok _ _ _ heq2
    obtain ⟨uuid, huuid, heq4⟩ := exceptBind_ok _ _ _ heq3
    obtain ⟨fmRaw, hfmRaw, heq5⟩ := exceptBind_ok _ _ _ heq4
    obtain ⟨fm, hfm, heq6⟩ := exceptBind_ok _ _ _ heq5
    obtain ⟨rot, hrot, heq7⟩ := exceptBind_ok _ _ _ heq6
    have hcfg : InkposterConfig.mk tok dev uuid fm rot = cfg := by
      simpa [pure, Except.pure] using heq7
    refine ⟨?_, ?_, ?_⟩
    · rw [← hcfg]
      exact parseRotation_mem _ _ hrot
    · rw [← hcfg]
      cases fm with
      | Frame_13_3 => exact Or.inl rfl
      | Frame_28_5 => exact Or.inr (Or.inl rfl)
      | Frame_31_5 => exact Or.inr (Or.inr rfl)
    · intro hnone
      rw [hnone] at hrot
      have h0 : (0 : RotationAngle) = rot := by
        simpa [parseRotation] using hrot
      rw [← hcfg]
      exact h0.symm
  · intro v hne hbadp
    unfold parseRotation
    dsimp only
    rw [if_neg hne]
    cases hp : jsParseIntBase10 (jsTrim v) with
    | none => exact ⟨_, rfl⟩
    | some n =>
      dsimp only
      rw [if_neg (hbadp n hp)]
      exact ⟨_, rfl⟩
  · intro s hmem
    simp only [List.mem_cons, List.not_mem_nil, or_false, not_or] at hmem
    obtain ⟨h1, h2, h3, h4, h5, h6⟩ := hmem
    unfold parseFrameModel
    rw [if_neg (by tauto), if_neg (by tauto), if_neg (by tauto)]
    exact ⟨_, rfl⟩

/-- Witness for C8: a complete environment with rotation input `"90"`
yields a config with rotation 90; rotation input `"45"` and frame-model
input `"17"` are rejected. -/
theorem c8_config_invariants_witness :
    (getInkposterConfig envEx).isOk = true ∧
    ((getInkposterConfig envEx).map (fun cfg => cfg.rotate) = .ok 90) ∧
    (∃ e, parseRotation (some "45") = .error e) ∧
    (∃ e, parseFrameModel "17" = .error e) := by
  refine ⟨rfl, rfl, ?_, ?_⟩
  · exact c8_config_invariants.2.1 "45" (by decide)
      (by
        intro n hn
        have h45 : jsParseIntBase10 (jsTrim "45") = some 45 := rfl
        rw [h45] at hn
        have : n = 45 := (Option.some.inj hn).symm
        subst this
        decide)
  · exact c8_config_invariants.2.2 "17" (by decide)

/-- C9: the `no response received` branch after the poll loop is
unreachable: the timeout is strictly positive, so the loop body runs at
least once and `lastResponse` is set on every non-throwing exit. -/
theorem c9_poll_no_response_unreachable :
    0 < POLL_TIMEOUT_MS ∧
    ∀ (server : Nat → PollRequest → PollReply) (config : InkposterConfig)
      (queueId : String),
      pollIsConverted server config queueId
        ≠ .error "Inkposter poll: no response received" := by
  refine ⟨by decide, ?_⟩
  intro server config queueId h
  unfold pollIsConverted at h
  cases hx : pollLoopAux server (pollRequest config queueId)
      pollFuel 0 0 none with
  | none =>
    have hsome := pollLoopAux_isSome server (pollRequest config queueId)
      pollFuel 0 0 none (by decide)
    rw [hx] at hsome
    simp at hsome
  | some x =>
    cases x with
    | error e =>
      rw [hx] at h
      simp only [Except.error.injEq] at h
      obtain ⟨k, hk⟩ := pollLoopAux_error_form server
        (pollRequest config queueId) pollFuel 0 0 none e hx
      rw [hk] at h
      exact pollErrMsg_ne_noResponse _ h
    | ok out =>
      rw [hx] at h
      cases hl : out.last with
      | none =>
        have hs := pollLoopAux_last_isSome server
          (pollRequest config queueId) pollFuel 0 0 none out
          (Or.inl (by decide)) hx
        rw [hl] at hs
        simp at hs
      | some fin =>
        simp [hl] at h

/-- C10: `uploadAndPoll` never reads its `mediaType` argument — any two
media types give identical behaviour — because the upload always uses the
transform's fixed `image/jpeg` output type, and hence always the filename
`userimage.jpg`. -/
theorem c10_mediaType_independence :
    (∀ (lib : SharpLib) (cs : ConvertRequest → ConvertReply)
       (ps : Nat → PollRequest → PollReply) (config : InkposterConfig)
       (bytes : List Nat) (mt1 mt2 : String),
       uploadAndPoll lib cs ps config bytes mt1
         = uploadAndPoll lib cs ps config bytes mt2) ∧
    (∀ (lib : SharpLib) (config : InkposterConfig) (bytes : List Nat)
       (rz : ResizeResult),
       resizeImageForFrame lib bytes config.frameModel config.rotate
         = .ok rz →
       rz.mediaType = "image/jpeg" ∧
       filenameFromMediaType rz.mediaType = "userimage.jpg" ∧
       (convertRequest config rz.resizedBytes rz.mediaType).body
         = [FormPart.textField "frames[]" config.frameUuid,
            FormPart.fileField "file" "userimage.jpg" "image/jpeg"
              rz.resizedBytes]) := by
  constructor
  · intro lib cs ps config bytes mt1 mt2
    rfl
  · intro lib config bytes rz hrz
    have hm := (resize_ok_fields lib bytes config.frameModel
      config.rotate rz hrz).1
    refine ⟨hm, ?_, ?_⟩
    · rw [hm]
      rfl
    · unfold convertRequest
      rw [hm]
      simp [filenameFromMediaType]

/-- Witness for C10 at the concrete example library and config. -/
theorem c10_mediaType_independence_witness :
    rEx.mediaType = "image/jpeg" ∧
    filenameFromMediaType rEx.mediaType = "userimage.jpg" ∧
    (convertRequest cfgEx rEx.resizedBytes rEx.mediaType).body
      = [FormPart.textField "frames[]" "uuid",
         FormPart.fileField "file" "userimage.jpg" "image/jpeg"
           [1, 2, 3]] := by
  have h := c10_mediaType_independence.2 libEx cfgEx [0] rEx (by rfl)
  simpa [cfgEx, rEx] using h

end InkPress
